import Mathlib

/-!
Verification model of `src/llm/http_llm_calculator.cc` (OpenVINO model server,
HTTP chat-completions LLM calculator).

Strings are modelled at the byte level (`List Nat`, each entry a byte value),
matching the byte-oriented C++ `std::string`.  JSON numbers carry the
rapidjson classification: `jint` for numbers with `IsInt() = true`,
`jfloat` for numbers with `IsDouble() = true` (values as rationals).
-/

namespace OvmsLLM

/-- ASCII/UTF-8 code units of a Lean string literal, used to write the byte
strings appearing literally in the source. -/
def ascii (s : String) : List Nat := s.data.map Char.toNat

/-- Model of a parsed rapidjson `Document` value.  Object members keep
document order (rapidjson `FindMember` scans in order); keys of a parsed
document are always strings. -/
inductive JValue where
  | jnull
  | jbool (b : Bool)
  | jint (n : Int)
  | jfloat (q : Rat)
  | jstr (s : List Nat)
  | jarr (elems : List JValue)
  | jobj (members : List (List Nat × JValue))

/-- rapidjson `FindMember`: first member with the given key, if any. -/
def findMember (ms : List (List Nat × JValue)) (key : List Nat) : Option JValue :=
  (ms.find? (fun m => decide (m.1 = key))).map (fun m => m.2)

/-- `IsBool()/GetBool()`. -/
def JValue.asBool : JValue → Option Bool
  | .jbool b => some b
  | _ => none

/-- `IsInt()/GetInt()`. -/
def JValue.asInt : JValue → Option Int
  | .jint n => some n
  | _ => none

/-- `IsDouble()/GetDouble()`: only numbers the parser classifies as
floating-point. -/
def JValue.asFloat : JValue → Option Rat
  | .jfloat q => some q
  | _ => none

/-- `IsString()/GetString()`. -/
def JValue.asStr : JValue → Option (List Nat)
  | .jstr s => some s
  | _ => none

/-- One `chat_entry_t = std::unordered_map<std::string, std::string>` entry,
as an association list where insertion overwrites an existing key. -/
abbrev ChatEntry := List (List Nat × List Nat)

/-- `chat[k] = v` on an `unordered_map`: overwrite if present, else insert. -/
def entryInsert (m : ChatEntry) (k v : List Nat) : ChatEntry :=
  if m.any (fun p => decide (p.1 = k)) then
    m.map (fun p => if p.1 = k then (k, v) else p)
  else
    m ++ [(k, v)]

/-- `entry.count(k) >= 1`. -/
def entryHas (m : ChatEntry) (k : List Nat) : Bool :=
  m.any (fun p => decide (p.1 = k))

/-- `entry[k]` lookup (the calculator only reads keys it has checked). -/
def entryGet (m : ChatEntry) (k : List Nat) : List Nat :=
  ((m.find? (fun p => decide (p.1 = k))).map (fun p => p.2)).getD []

/-- The normalized request built by `OpenAIChatCompletionsRequest::parse`.
`float` fields are modelled as rationals. -/
structure OpenAIChatCompletionsRequest where
  messages : List ChatEntry
  stream : Bool
  model : List Nat
  maxTokens : Option Int
  diversityPenalty : Option Rat
  repetitionPenalty : Option Rat
  lengthPenalty : Option Rat
  numReturnSequences : Option Int
  temperature : Option Rat
  topP : Option Rat
  topK : Option Int
  seed : Option Int
  bestOf : Option Int
  ignoreEOS : Option Bool

/-- The member loop of one `messages` entry (lines 140-146): every member
value must be a string; `chat[name] = value` inserts with overwrite. -/
def parseEntryMembers (acc : ChatEntry) : List (List Nat × JValue) → Option ChatEntry
  | [] => some acc
  | m :: t =>
    match m.2 with
    | .jstr s => parseEntryMembers (entryInsert acc m.1 s) t
    | _ => none

/-- One `messages` array entry: must be an object, every member value a
string (member names of a parsed document are strings by construction). -/
def parseEntry : JValue → Option ChatEntry
  | .jobj mems => parseEntryMembers [] mems
  | _ => none

/-- The element loop over the `messages` array (lines 135-147), with early
return on a bad entry. -/
def parseMessagesList : List JValue → Option (List ChatEntry)
  | [] => some []
  | x :: t =>
    match parseEntry x with
    | none => none
    | some e =>
      match parseMessagesList t with
      | none => none
      | some es => some (e :: es)

/-- The `messages` value: must be an array, each element a valid entry. -/
def parseMessages : JValue → Option (List ChatEntry)
  | .jarr xs => parseMessagesList xs
  | _ => none

/-- An optional typed field: absent is fine, present with the wrong type
fails.  Mirrors the `FindMember` / type-check / assign pattern. -/
def getOptField (as : JValue → Option α) (ms : List (List Nat × JValue))
    (key : List Nat) : Option (Option α) :=
  match findMember ms key with
  | none => some none
  | some v =>
    match as v with
    | none => none
    | some a => some (some a)

/-- The required-`messages` lookup step: missing key fails, then the value
is checked by `parseMessages`. -/
def requiredMessages (ms : List (List Nat × JValue)) : Option (List ChatEntry) :=
  match findMember ms (ascii "messages") with
  | none => none
  | some v => parseMessages v

/-- The required-`model` lookup step: missing key fails, value must be a
string. -/
def requiredModel (ms : List (List Nat × JValue)) : Option (List Nat) :=
  match findMember ms (ascii "model") with
  | none => none
  | some v => v.asStr

/-- The `max_tokens <= 0` early return (lines 165-166), applied to the
already-extracted optional value. -/
def maxTokensGuard (o : Option Int) : Option Unit :=
  match o with
  | some v => if v ≤ 0 then none else some ()
  | none => some ()

/-- A `v < lo || v > hi` early return on an optional float field
(`temperature` lines 229-230, `top_p` lines 239-240). -/
def floatRangeGuard (lo hi : Rat) (o : Option Rat) : Option Unit :=
  match o with
  | some v => if v < lo ∨ v > hi then none else some ()
  | none => some ()

/-- The checks of `parse` from `top_p` (line 234) to the end, given the
values already extracted. -/
def parseTail (ms : List (List Nat × JValue)) (streamV : Option Bool)
    (messagesV : List ChatEntry) (modelV : List Nat)
    (maxTokensV : Option Int) (repetitionPenaltyV diversityPenaltyV
    lengthPenaltyV temperatureV : Option Rat) :
    Option OpenAIChatCompletionsRequest := do
  -- top_p: float; optional; range [0, 1]
  let topPV ← getOptField JValue.asFloat ms (ascii "top_p")
  let _ ← floatRangeGuard 0 1 topPV
  -- top_k: int; optional
  let topKV ← getOptField JValue.asInt ms (ascii "top_k")
  -- seed: int; optional
  let seedV ← getOptField JValue.asInt ms (ascii "seed")
  -- best_of: int; optional
  let bestOfV ← getOptField JValue.asInt ms (ascii "best_of")
  -- n: int; optional
  let nV ← getOptField JValue.asInt ms (ascii "n")
  -- ignore_eos: bool; optional
  let ignoreEOSV ← getOptField JValue.asBool ms (ascii "ignore_eos")
  pure
    { messages := messagesV
      stream := streamV.getD false
      model := modelV
      maxTokens := maxTokensV
      diversityPenalty := diversityPenaltyV
      repetitionPenalty := repetitionPenaltyV
      lengthPenalty := lengthPenaltyV
      numReturnSequences := nV
      temperature := temperatureV
      topP := topPV
      topK := topKV
      seed := seedV
      bestOf := bestOfV
      ignoreEOS := ignoreEOSV }

/-- The checks of `parse` from `max_tokens` (line 160) to `temperature`
(line 231), given the values already extracted. -/
def parseMid (ms : List (List Nat × JValue)) (streamV : Option Bool)
    (messagesV : List ChatEntry) (modelV : List Nat) :
    Option OpenAIChatCompletionsRequest := do
  -- max_tokens: int; optional; must be > 0
  let maxTokensV ← getOptField JValue.asInt ms (ascii "max_tokens")
  let _ ← maxTokensGuard maxTokensV
  -- repetition_penalty: float; optional
  let repetitionPenaltyV ← getOptField JValue.asFloat ms (ascii "repetition_penalty")
  -- diversity_penalty: float; optional
  let diversityPenaltyV ← getOptField JValue.asFloat ms (ascii "diversity_penalty")
  -- length_penalty: float; optional
  let lengthPenaltyV ← getOptField JValue.asFloat ms (ascii "length_penalty")
  -- temperature: float; optional; range [0, 2]
  let temperatureV ← getOptField JValue.asFloat ms (ascii "temperature")
  let _ ← floatRangeGuard 0 2 temperatureV
  parseTail ms streamV messagesV modelV maxTokensV repetitionPenaltyV
    diversityPenaltyV lengthPenaltyV temperatureV

/-- `OpenAIChatCompletionsRequest::parse` (lines 115-314).  `none` models
`return false` (surfaced by the caller as a bad request); each monadic
step is one early-return check, in source order (continued by `parseMid`
and `parseTail`). -/
def parse (doc : JValue) : Option OpenAIChatCompletionsRequest := do
  -- if (!this->doc.IsObject()) return false;
  let ms ← match doc with
    | .jobj ms => some ms
    | _ => none
  -- stream: bool; optional
  let streamV ← getOptField JValue.asBool ms (ascii "stream")
  -- messages: required array of objects of string→string
  let messagesV ← requiredMessages ms
  -- model: string; required
  let modelV ← requiredModel ms
  parseMid ms streamV messagesV modelV

/-! ### Spec-side failure condition for the request decoder (claim C2)

The following predicates are written from the specification's words
(§4.A / claim C2), to be compared with `parse` above. -/

/-- A present recognized field whose JSON type is not the expected one. -/
def fieldTypeViolation (good : JValue → Bool) (ms : List (List Nat × JValue))
    (key : List Nat) : Bool :=
  match findMember ms key with
  | none => false
  | some v => ! good v

/-- JSON boolean test. -/
def isBoolT : JValue → Bool
  | .jbool _ => true
  | _ => false

/-- Number the parser classifies as an integer. -/
def isIntT : JValue → Bool
  | .jint _ => true
  | _ => false

/-- Number the parser classifies as floating-point. -/
def isFloatT : JValue → Bool
  | .jfloat _ => true
  | _ => false

/-- JSON string test. -/
def isStrT : JValue → Bool
  | .jstr _ => true
  | _ => false

/-- A `messages` entry that is not an object or has a non-string value
(keys of a parsed document are strings by construction). -/
def entryShapeViolation : JValue → Bool
  | .jobj mems => mems.any (fun m => ! isStrT m.2)
  | _ => true

/-- `messages` missing, not an array, or containing a bad entry. -/
def messagesShapeViolation (ms : List (List Nat × JValue)) : Bool :=
  match findMember ms (ascii "messages") with
  | none => true
  | some (.jarr xs) => xs.any entryShapeViolation
  | some _ => true

/-- `model` missing or not a string. -/
def modelShapeViolation (ms : List (List Nat × JValue)) : Bool :=
  match findMember ms (ascii "model") with
  | none => true
  | some v => ! isStrT v

/-- `max_tokens ≤ 0` (when present with the right type). -/
def maxTokensRangeViolation (ms : List (List Nat × JValue)) : Bool :=
  match findMember ms (ascii "max_tokens") with
  | some (.jint n) => decide (n ≤ 0)
  | _ => false

/-- `temperature` outside `[0, 2]`. -/
def temperatureRangeViolation (ms : List (List Nat × JValue)) : Bool :=
  match findMember ms (ascii "temperature") with
  | some (.jfloat q) => decide (q < 0) || decide (q > 2)
  | _ => false

/-- `top_p` outside `[0, 1]`. -/
def topPRangeViolation (ms : List (List Nat × JValue)) : Bool :=
  match findMember ms (ascii "top_p") with
  | some (.jfloat q) => decide (q < 0) || decide (q > 1)
  | _ => false

/-- The decoder-failure condition exactly as the claim states it: not an
object; bad `messages`; bad `model`; a recognized field of the wrong JSON
type; `max_tokens ≤ 0`; `temperature` outside `[0,2]`; `top_p` outside
`[0,1]`.  Unknown fields do not appear, hence never cause failure. -/
def specBadRequest : JValue → Bool
  | .jobj ms =>
      fieldTypeViolation isBoolT ms (ascii "stream") ||
      messagesShapeViolation ms ||
      modelShapeViolation ms ||
      fieldTypeViolation isIntT ms (ascii "max_tokens") ||
      maxTokensRangeViolation ms ||
      fieldTypeViolation isFloatT ms (ascii "repetition_penalty") ||
      fieldTypeViolation isFloatT ms (ascii "diversity_penalty") ||
      fieldTypeViolation isFloatT ms (ascii "length_penalty") ||
      fieldTypeViolation isFloatT ms (ascii "temperature") ||
      temperatureRangeViolation ms ||
      fieldTypeViolation isFloatT ms (ascii "top_p") ||
      topPRangeViolation ms ||
      fieldTypeViolation isIntT ms (ascii "top_k") ||
      fieldTypeViolation isIntT ms (ascii "seed") ||
      fieldTypeViolation isIntT ms (ascii "best_of") ||
      fieldTypeViolation isIntT ms (ascii "n") ||
      fieldTypeViolation isBoolT ms (ascii "ignore_eos")
  | _ => true

/-! ### Bridge lemmas between `parse` and the spec-side condition -/

theorem getOptField_isNone (as : JValue → Option α) (good : JValue → Bool)
    (h : ∀ v, (as v).isSome = good v) (ms : List (List Nat × JValue))
    (key : List Nat) :
    (getOptField as ms key).isNone = fieldTypeViolation good ms key := by
  unfold getOptField fieldTypeViolation
  cases findMember ms key with
  | none => simp
  | some v =>
    have hv := h v
    cases has : as v <;> simp [has] at hv ⊢ <;> simp [← hv]

theorem parseEntryMembers_isNone (mems : List (List Nat × JValue)) :
    ∀ acc, (parseEntryMembers acc mems).isNone = mems.any (fun m => ! isStrT m.2) := by
  induction mems with
  | nil => intro acc; rfl
  | cons m t ih =>
    intro acc
    obtain ⟨k, v⟩ := m
    cases v <;> simp_all [parseEntryMembers, isStrT]

theorem parseEntry_isNone (v : JValue) :
    (parseEntry v).isNone = entryShapeViolation v := by
  cases v with
  | jobj mems =>
    simpa [parseEntry, entryShapeViolation] using parseEntryMembers_isNone mems []
  | jnull => rfl
  | jbool b => rfl
  | jint n => rfl
  | jfloat q => rfl
  | jstr s => rfl
  | jarr xs => rfl

theorem parseMessagesList_isNone (xs : List JValue) :
    (parseMessagesList xs).isNone = xs.any entryShapeViolation := by
  induction xs with
  | nil => rfl
  | cons x t ih =>
    have hx := parseEntry_isNone x
    cases he : parseEntry x with
    | none =>
      simp [he] at hx
      simp [parseMessagesList, he, ← hx]
    | some e =>
      simp [he] at hx
      cases ht : parseMessagesList t <;> simp_all [parseMessagesList]

theorem asBool_isSome : ∀ v : JValue, (v.asBool).isSome = isBoolT v := by
  intro v; cases v <;> rfl

theorem asInt_isSome : ∀ v : JValue, (v.asInt).isSome = isIntT v := by
  intro v; cases v <;> rfl

theorem asFloat_isSome : ∀ v : JValue, (v.asFloat).isSome = isFloatT v := by
  intro v; cases v <;> rfl

theorem asStr_isSome : ∀ v : JValue, (v.asStr).isSome = isStrT v := by
  intro v; cases v <;> rfl

theorem ftv_of_getOptField_none {as : JValue → Option α} {good : JValue → Bool}
    (hg : ∀ v, (as v).isSome = good v) {ms : List (List Nat × JValue)}
    {key : List Nat} (h : getOptField as ms key = none) :
    fieldTypeViolation good ms key = true := by
  have := getOptField_isNone as good hg ms key
  rw [h] at this
  simpa using this.symm

theorem ftv_of_getOptField_some {as : JValue → Option α} {good : JValue → Bool}
    (hg : ∀ v, (as v).isSome = good v) {ms : List (List Nat × JValue)}
    {key : List Nat} {o : Option α} (h : getOptField as ms key = some o) :
    fieldTypeViolation good ms key = false := by
  have := getOptField_isNone as good hg ms key
  rw [h] at this
  simpa using this.symm

theorem findMember_of_getOptField_some_none {as : JValue → Option α}
    {ms : List (List Nat × JValue)} {key : List Nat}
    (h : getOptField as ms key = some none) : findMember ms key = none := by
  unfold getOptField at h
  cases hf : findMember ms key with
  | none => rfl
  | some v =>
    simp only [hf] at h
    cases has : as v <;> simp [has] at h

theorem findMember_of_getOptField_some_some {as : JValue → Option α}
    {ms : List (List Nat × JValue)} {key : List Nat} {a : α}
    (h : getOptField as ms key = some (some a)) :
    ∃ v, findMember ms key = some v ∧ as v = some a := by
  unfold getOptField at h
  cases hf : findMember ms key with
  | none => simp only [hf] at h; simp at h
  | some v =>
    simp only [hf] at h
    cases has : as v <;> simp [has] at h
    exact ⟨v, rfl, by rw [has, h]⟩

theorem chainStep {α β} {e : Option α} {f : α → Option β} {b c : Bool}
    (he : e.isNone = b) (hf : ∀ a, e = some a → (f a).isNone = c) :
    (e.bind f).isNone = (b || c) := by
  cases e with
  | none => simp at he; simp [← he]
  | some a => simp at he; simp [← he, hf a rfl]

theorem requiredMessages_isNone (ms : List (List Nat × JValue)) :
    (requiredMessages ms).isNone = messagesShapeViolation ms := by
  unfold requiredMessages messagesShapeViolation
  cases h : findMember ms (ascii "messages") with
  | none => rfl
  | some v =>
    cases v with
    | jarr xs => simpa [parseMessages] using parseMessagesList_isNone xs
    | jnull => rfl
    | jbool b => rfl
    | jint n => rfl
    | jfloat q => rfl
    | jstr s => rfl
    | jobj o => rfl

theorem requiredModel_isNone (ms : List (List Nat × JValue)) :
    (requiredModel ms).isNone = modelShapeViolation ms := by
  unfold requiredModel modelShapeViolation
  cases h : findMember ms (ascii "model") with
  | none => rfl
  | some v => cases v <;> rfl

theorem maxTokensGuard_isNone {ms : List (List Nat × JValue)} {o : Option Int}
    (h : getOptField JValue.asInt ms (ascii "max_tokens") = some o) :
    (maxTokensGuard o).isNone = maxTokensRangeViolation ms := by
  unfold maxTokensGuard
  cases o with
  | none =>
    simp [maxTokensRangeViolation, findMember_of_getOptField_some_none h]
  | some n =>
    obtain ⟨v, hv, hav⟩ := findMember_of_getOptField_some_some h
    cases v <;> simp [JValue.asInt] at hav
    rw [hav] at hv
    by_cases hn : n ≤ 0 <;> simp [maxTokensRangeViolation, hv, hn]

theorem temperatureGuard_isNone {ms : List (List Nat × JValue)} {o : Option Rat}
    (h : getOptField JValue.asFloat ms (ascii "temperature") = some o) :
    (floatRangeGuard 0 2 o).isNone = temperatureRangeViolation ms := by
  unfold floatRangeGuard
  cases o with
  | none =>
    simp [temperatureRangeViolation, findMember_of_getOptField_some_none h]
  | some q =>
    obtain ⟨v, hv, hav⟩ := findMember_of_getOptField_some_some h
    cases v <;> simp [JValue.asFloat] at hav
    rw [hav] at hv
    by_cases hq1 : q < 0 <;> by_cases hq2 : q > 2 <;>
      simp [temperatureRangeViolation, hv, hq1, hq2]

theorem topPGuard_isNone {ms : List (List Nat × JValue)} {o : Option Rat}
    (h : getOptField JValue.asFloat ms (ascii "top_p") = some o) :
    (floatRangeGuard 0 1 o).isNone = topPRangeViolation ms := by
  unfold floatRangeGuard
  cases o with
  | none =>
    simp [topPRangeViolation, findMember_of_getOptField_some_none h]
  | some q =>
    obtain ⟨v, hv, hav⟩ := findMember_of_getOptField_some_some h
    cases v <;> simp [JValue.asFloat] at hav
    rw [hav] at hv
    by_cases hq1 : q < 0 <;> by_cases hq2 : q > 1 <;>
      simp [topPRangeViolation, hv, hq1, hq2]

theorem parseTail_isNone (ms : List (List Nat × JValue)) (streamV : Option Bool)
    (messagesV : List ChatEntry) (modelV : List Nat) (maxTokensV : Option Int)
    (repV divV lenV tempV : Option Rat) :
    (parseTail ms streamV messagesV modelV maxTokensV repV divV lenV tempV).isNone =
        (fieldTypeViolation isFloatT ms (ascii "top_p") ||
        (topPRangeViolation ms ||
        (fieldTypeViolation isIntT ms (ascii "top_k") ||
        (fieldTypeViolation isIntT ms (ascii "seed") ||
        (fieldTypeViolation isIntT ms (ascii "best_of") ||
        (fieldTypeViolation isIntT ms (ascii "n") ||
        (fieldTypeViolation isBoolT ms (ascii "ignore_eos") ||
          false))))))) := by
  refine chainStep (getOptField_isNone _ _ asFloat_isSome ms _)
    (fun topPV h9 => ?_)
  refine chainStep (topPGuard_isNone h9) (fun u3 hu3 => ?_)
  refine chainStep (getOptField_isNone _ _ asInt_isSome ms _)
    (fun topKV h10 => ?_)
  refine chainStep (getOptField_isNone _ _ asInt_isSome ms _)
    (fun seedV h11 => ?_)
  refine chainStep (getOptField_isNone _ _ asInt_isSome ms _)
    (fun bestOfV h12 => ?_)
  refine chainStep (getOptField_isNone _ _ asInt_isSome ms _)
    (fun nV h13 => ?_)
  refine chainStep (getOptField_isNone _ _ asBool_isSome ms _)
    (fun ignoreV h14 => ?_)
  rfl

theorem parseMid_isNone (ms : List (List Nat × JValue)) (streamV : Option Bool)
    (messagesV : List ChatEntry) (modelV : List Nat) :
    (parseMid ms streamV messagesV modelV).isNone =
        (fieldTypeViolation isIntT ms (ascii "max_tokens") ||
        (maxTokensRangeViolation ms ||
        (fieldTypeViolation isFloatT ms (ascii "repetition_penalty") ||
        (fieldTypeViolation isFloatT ms (ascii "diversity_penalty") ||
        (fieldTypeViolation isFloatT ms (ascii "length_penalty") ||
        (fieldTypeViolation isFloatT ms (ascii "temperature") ||
        (temperatureRangeViolation ms ||
        (fieldTypeViolation isFloatT ms (ascii "top_p") ||
        (topPRangeViolation ms ||
        (fieldTypeViolation isIntT ms (ascii "top_k") ||
        (fieldTypeViolation isIntT ms (ascii "seed") ||
        (fieldTypeViolation isIntT ms (ascii "best_of") ||
        (fieldTypeViolation isIntT ms (ascii "n") ||
        (fieldTypeViolation isBoolT ms (ascii "ignore_eos") ||
          false)))))))))))))) := by
  refine chainStep (getOptField_isNone _ _ asInt_isSome ms _)
    (fun maxTokensV h4 => ?_)
  refine chainStep (maxTokensGuard_isNone h4) (fun u1 hu1 => ?_)
  refine chainStep (getOptField_isNone _ _ asFloat_isSome ms _)
    (fun repV h5 => ?_)
  refine chainStep (getOptField_isNone _ _ asFloat_isSome ms _)
    (fun divV h6 => ?_)
  refine chainStep (getOptField_isNone _ _ asFloat_isSome ms _)
    (fun lenV h7 => ?_)
  refine chainStep (getOptField_isNone _ _ asFloat_isSome ms _)
    (fun tempV h8 => ?_)
  refine chainStep (temperatureGuard_isNone h8) (fun u2 hu2 => ?_)
  exact parseTail_isNone ms streamV messagesV modelV maxTokensV repV divV
    lenV tempV

/-- C2: the request decoder fails (surfaced to the host as a bad request)
exactly when the document is not an object; `messages` is missing, not an
array, or has a non-object entry or an entry with a non-string value (keys
of a parsed document are strings by construction); `model` is missing or
not a string; a recognized field has the wrong JSON type (float fields
accept only numbers the parser classifies as floating-point, int/bool
fields likewise); `max_tokens ≤ 0`; `temperature` outside `[0,2]`; or
`top_p` outside `[0,1]`.  Unknown fields never cause failure (the spec
condition mentions only recognized keys).  The decoder is a pure function
of the document: no I/O, no shared state. -/
theorem parse_isNone_eq_specBadRequest (doc : JValue) :
    (parse doc).isNone = specBadRequest doc := by
  cases doc with
  | jobj ms =>
    have main : (parse (.jobj ms)).isNone =
        (fieldTypeViolation isBoolT ms (ascii "stream") ||
        (messagesShapeViolation ms ||
        (modelShapeViolation ms ||
        (fieldTypeViolation isIntT ms (ascii "max_tokens") ||
        (maxTokensRangeViolation ms ||
        (fieldTypeViolation isFloatT ms (ascii "repetition_penalty") ||
        (fieldTypeViolation isFloatT ms (ascii "diversity_penalty") ||
        (fieldTypeViolation isFloatT ms (ascii "length_penalty") ||
        (fieldTypeViolation isFloatT ms (ascii "temperature") ||
        (temperatureRangeViolation ms ||
        (fieldTypeViolation isFloatT ms (ascii "top_p") ||
        (topPRangeViolation ms ||
        (fieldTypeViolation isIntT ms (ascii "top_k") ||
        (fieldTypeViolation isIntT ms (ascii "seed") ||
        (fieldTypeViolation isIntT ms (ascii "best_of") ||
        (fieldTypeViolation isIntT ms (ascii "n") ||
        (fieldTypeViolation isBoolT ms (ascii "ignore_eos") ||
          false)))))))))))))))))  := by
      refine chainStep (getOptField_isNone _ _ asBool_isSome ms _)
        (fun streamV h1 => ?_)
      refine chainStep (requiredMessages_isNone ms) (fun messagesV h2 => ?_)
      refine chainStep (requiredModel_isNone ms) (fun modelV h3 => ?_)
      exact parseMid_isNone ms streamV messagesV modelV
    rw [main]
    simp only [specBadRequest, Bool.or_assoc, Bool.or_false]
  | jnull => rfl
  | jbool b => rfl
  | jint n => rfl
  | jfloat q => rfl
  | jstr s => rfl
  | jarr a => rfl

/-! ## Incremental detokenizer (`TextStreamer`, lines 318-345)

The tokenizer is an external collaborator; `put` takes its `decode`
function (token ids to UTF-8 bytes) as a parameter. -/

/-- `TextStreamer` mutable state: the token cache and `printLen`, the byte
offset up to which text has already been emitted. -/
structure TextStreamer where
  tokenCache : List Int
  printLen : Nat

/-- `TextStreamer::put` (lines 327-344).  Byte 10 is `'\n'`, byte 32 is
`' '`, bytes 239,191,189 are the UTF-8 encoding of U+FFFD (the 3-byte
literal `"�"` compared at `text.size()-3`).  The emitted chunk
`std::string{text.data() + printLen, text.size() - printLen}` is
`text.drop printLen`. -/
def TextStreamer.put (decode : List Int → List Nat) (st : TextStreamer)
    (token : Int) : Option (List Nat) × TextStreamer :=
  let cache := st.tokenCache ++ [token]
  let text := decode cache
  if text ≠ [] ∧ text.getLast? = some 10 then
    (some (text.drop st.printLen), ⟨[], 0⟩)
  else if 3 ≤ text.length ∧ text.drop (text.length - 3) = [239, 191, 189] then
    (none, ⟨cache, st.printLen⟩)
  else if st.printLen < text.length ∧ (text.drop st.printLen).any (fun c => decide (c = 32)) then
    (some (text.drop st.printLen), ⟨cache, text.length⟩)
  else
    (none, ⟨cache, st.printLen⟩)

/-- The detokenizer rules exactly as claim C1 words them: append the token,
decode the whole buffer to `T`, then (1) newline at the end emits
`T[printed_len..]` and resets; (2) a U+FFFD three-byte suffix emits
nothing; (3) an ASCII space among the new bytes emits `T[printed_len..]`
and advances `printed_len` to `len T`; (4) otherwise nothing. -/
def putClaim (decode : List Int → List Nat) (st : TextStreamer)
    (token : Int) : Option (List Nat) × TextStreamer :=
  let T := decode (st.tokenCache ++ [token])
  if T ≠ [] ∧ T.getLast? = some 10 then
    (some (T.drop st.printLen), ⟨[], 0⟩)
  else if [239, 191, 189] <:+ T then
    (none, ⟨st.tokenCache ++ [token], st.printLen⟩)
  else if st.printLen < T.length ∧ 32 ∈ T.drop st.printLen then
    (some (T.drop st.printLen), ⟨st.tokenCache ++ [token], T.length⟩)
  else
    (none, ⟨st.tokenCache ++ [token], st.printLen⟩)

theorem suffix_three_iff (l T : List Nat) (hl : l.length = 3) :
    (l <:+ T) ↔ (3 ≤ T.length ∧ T.drop (T.length - 3) = l) := by
  constructor
  · intro h
    have hlen : l.length ≤ T.length := h.length_le
    obtain ⟨p, hp⟩ := h
    subst hp
    refine ⟨by omega, ?_⟩
    have : (p ++ l).length - 3 = p.length := by
      simp [List.length_append, hl]
    rw [this, List.drop_left]
  · rintro ⟨h3, hd⟩
    exact ⟨T.take (T.length - 3), by conv_rhs => rw [← List.take_append_drop (T.length - 3) T, hd]⟩

/-- C1: `TextStreamer::put` decides its result by exactly the four rules,
in order, that the claim states: it agrees with `putClaim`, the rules
transcribed from the claim text. -/
theorem put_eq_putClaim (decode : List Int → List Nat) (st : TextStreamer)
    (token : Int) :
    TextStreamer.put decode st token = putClaim decode st token := by
  unfold TextStreamer.put putClaim
  dsimp only
  by_cases c1 : decode (st.tokenCache ++ [token]) ≠ [] ∧
      (decode (st.tokenCache ++ [token])).getLast? = some 10
  · rw [if_pos c1, if_pos c1]
  · rw [if_neg c1, if_neg c1]
    by_cases c2 : 3 ≤ (decode (st.tokenCache ++ [token])).length ∧
        (decode (st.tokenCache ++ [token])).drop
          ((decode (st.tokenCache ++ [token])).length - 3) = [239, 191, 189]
    · rw [if_pos c2, if_pos ((suffix_three_iff [239, 191, 189] _ rfl).mpr c2)]
    · rw [if_neg c2, if_neg
        (fun hs => c2 ((suffix_three_iff [239, 191, 189] _ rfl).mp hs))]
      have hany : (((decode (st.tokenCache ++ [token])).drop st.printLen).any
          (fun c => decide (c = 32)) = true) ↔
          32 ∈ (decode (st.tokenCache ++ [token])).drop st.printLen := by
        simp [List.any_eq_true]
      have hmem : (st.printLen < (decode (st.tokenCache ++ [token])).length ∧
          32 ∈ (decode (st.tokenCache ++ [token])).drop st.printLen) ↔
          (st.printLen < (decode (st.tokenCache ++ [token])).length ∧
          ((decode (st.tokenCache ++ [token])).drop st.printLen).any
            (fun c => decide (c = 32)) = true) :=
        and_congr_right fun _ => hany.symm
      by_cases c3 : st.printLen < (decode (st.tokenCache ++ [token])).length ∧
          ((decode (st.tokenCache ++ [token])).drop st.printLen).any
            (fun c => decide (c = 32)) = true
      · rw [if_pos c3, if_pos (hmem.mpr c3)]
      · rw [if_neg c3, if_neg (fun hx => c3 (hmem.mp hx))]

/-- C9: after any call to `put`, `printLen` is at most the byte length of
the decode of the current token cache, provided it was before the call and
the external detokenizer never shortens the text when a token is appended;
and a call that took the newline branch leaves an empty cache and
`printLen = 0`. -/
theorem put_printLen_invariant (decode : List Int → List Nat)
    (hmono : ∀ cache t, (decode cache).length ≤ (decode (cache ++ [t])).length)
    (st : TextStreamer) (hinv : st.printLen ≤ (decode st.tokenCache).length)
    (token : Int) :
    (TextStreamer.put decode st token).2.printLen ≤
      (decode (TextStreamer.put decode st token).2.tokenCache).length ∧
    ((decode (st.tokenCache ++ [token]) ≠ [] ∧
      (decode (st.tokenCache ++ [token])).getLast? = some 10) →
      (TextStreamer.put decode st token).2.tokenCache = [] ∧
      (TextStreamer.put decode st token).2.printLen = 0) := by
  have hstep := hmono st.tokenCache token
  unfold TextStreamer.put
  dsimp only
  split_ifs with h1 h2 h3
  · exact ⟨Nat.zero_le _, fun _ => ⟨rfl, rfl⟩⟩
  · exact ⟨le_trans hinv hstep, fun hc => absurd hc h1⟩
  · exact ⟨le_refl _, fun hc => absurd hc h1⟩
  · exact ⟨le_trans hinv hstep, fun hc => absurd hc h1⟩

/-- Witness for C9 at a concrete decoder (one byte 97 per token), the empty
streamer state and token 7. -/
theorem put_printLen_invariant_witness :
    (TextStreamer.put (fun ts => List.replicate ts.length 97) ⟨[], 0⟩ 7).2.printLen ≤
      ((fun ts => List.replicate ts.length 97)
        ((TextStreamer.put (fun ts => List.replicate ts.length 97) ⟨[], 0⟩ 7).2.tokenCache)).length ∧
    (((fun ts => List.replicate ts.length 97) (([] : List Int) ++ [7]) ≠ [] ∧
      ((fun ts => List.replicate ts.length 97) (([] : List Int) ++ [7])).getLast? = some 10) →
      (TextStreamer.put (fun ts => List.replicate ts.length 97) ⟨[], 0⟩ 7).2.tokenCache = [] ∧
      (TextStreamer.put (fun ts => List.replicate ts.length 97) ⟨[], 0⟩ 7).2.printLen = 0) :=
  put_printLen_invariant (fun ts => List.replicate ts.length 97)
    (fun cache t => by simp) ⟨[], 0⟩ (by simp) 7

/-! ## Generation config (`createGenerationConfig`, lines 69-108) -/

/-- The engine's `GenerationConfig` parameter bundle.  Its default values
come from the external continuous-batching library, so the mapping below
is parametrized by the default-constructed config. -/
structure GenerationConfig where
  max_new_tokens : Int
  ignore_eos : Bool
  num_groups : Int
  group_size : Int
  diversity_penalty : Rat
  num_return_sequences : Int
  repetition_penalty : Rat
  length_penalty : Rat
  temperature : Rat
  top_k : Int
  top_p : Rat
  rng_seed : Int
  do_sample : Bool

/-- `OpenAIChatCompletionsRequest::createGenerationConfig` (lines 69-108):
starting from the default-constructed config `c0`, overwrite each field
from the corresponding optional when set, hardcode `num_groups = 1`, and
finally compute `do_sample = config.temperature > 0.0f && config.group_size == 1`
on the resulting values. -/
def createGenerationConfig (r : OpenAIChatCompletionsRequest)
    (c0 : GenerationConfig) : GenerationConfig :=
  let max_new_tokens := match r.maxTokens with
    | some v => v
    | none => c0.max_new_tokens
  let ignore_eos := match r.ignoreEOS with
    | some v => v
    | none => c0.ignore_eos
  let num_groups : Int := 1
  let group_size := match r.bestOf with
    | some v => v
    | none => c0.group_size
  let diversity_penalty := match r.diversityPenalty with
    | some v => v
    | none => c0.diversity_penalty
  let num_return_sequences := match r.numReturnSequences with
    | some v => v
    | none => c0.num_return_sequences
  let repetition_penalty := match r.repetitionPenalty with
    | some v => v
    | none => c0.repetition_penalty
  let length_penalty := match r.lengthPenalty with
    | some v => v
    | none => c0.length_penalty
  let temperature := match r.temperature with
    | some v => v
    | none => c0.temperature
  let top_k := match r.topK with
    | some v => v
    | none => c0.top_k
  let top_p := match r.topP with
    | some v => v
    | none => c0.top_p
  let rng_seed := match r.seed with
    | some v => v
    | none => c0.rng_seed
  { max_new_tokens, ignore_eos, num_groups, group_size, diversity_penalty,
    num_return_sequences, repetition_penalty, length_penalty, temperature,
    top_k, top_p, rng_seed,
    do_sample := decide (0 < temperature) && decide (group_size = 1) }

/-- C5: `createGenerationConfig` is a deterministic function of the decoded
request with `num_groups = 1` always; each knob copied exactly when the
corresponding optional is set (otherwise the engine default from `c0` is
left in place); and `do_sample = (temperature > 0 ∧ group_size == 1)`
evaluated on the resulting config values. -/
theorem createGenerationConfig_spec (r : OpenAIChatCompletionsRequest)
    (c0 : GenerationConfig) :
    (createGenerationConfig r c0).num_groups = 1 ∧
    (createGenerationConfig r c0).group_size = r.bestOf.getD c0.group_size ∧
    (createGenerationConfig r c0).num_return_sequences =
      r.numReturnSequences.getD c0.num_return_sequences ∧
    (createGenerationConfig r c0).max_new_tokens =
      r.maxTokens.getD c0.max_new_tokens ∧
    (createGenerationConfig r c0).ignore_eos = r.ignoreEOS.getD c0.ignore_eos ∧
    (createGenerationConfig r c0).diversity_penalty =
      r.diversityPenalty.getD c0.diversity_penalty ∧
    (createGenerationConfig r c0).repetition_penalty =
      r.repetitionPenalty.getD c0.repetition_penalty ∧
    (createGenerationConfig r c0).length_penalty =
      r.lengthPenalty.getD c0.length_penalty ∧
    (createGenerationConfig r c0).temperature =
      r.temperature.getD c0.temperature ∧
    (createGenerationConfig r c0).top_k = r.topK.getD c0.top_k ∧
    (createGenerationConfig r c0).top_p = r.topP.getD c0.top_p ∧
    (createGenerationConfig r c0).rng_seed = r.seed.getD c0.rng_seed ∧
    (createGenerationConfig r c0).do_sample =
      (decide (0 < (createGenerationConfig r c0).temperature) &&
        decide ((createGenerationConfig r c0).group_size = 1)) := by
  obtain ⟨msgs, stream, model, mt, dp, rp, lp, nrs, temp, tp, tk, sd, bo, ie⟩ := r
  refine ⟨rfl, ?_, ?_, ?_, ?_, ?_, ?_, ?_, ?_, ?_, ?_, ?_, ?_⟩
  · cases bo <;> rfl
  · cases nrs <;> rfl
  · cases mt <;> rfl
  · cases ie <;> rfl
  · cases dp <;> rfl
  · cases rp <;> rfl
  · cases lp <;> rfl
  · cases temp <;> rfl
  · cases tk <;> rfl
  · cases tp <;> rfl
  · cases sd <;> rfl
  · cases temp <;> cases bo <;> rfl

/-! ## Response serialization (lines 521-678)

JSON output is modelled as a tree whose objects keep the exact key order
of the `writer.String(key)` calls, plus a byte-level renderer matching the
rapidjson `Writer` output. -/

/-- JSON output tree as produced by the rapidjson writer calls. -/
inductive JOut where
  | onull
  | ostr (s : List Nat)
  | oint (n : Int)
  | oarr (elems : List JOut)
  | oobj (fields : List (List Nat × JOut))

/-- Key list of a JSON object, in writer order. -/
def topKeys : JOut → List (List Nat)
  | .oobj fs => fs.map (fun f => f.1)
  | _ => []

/-- Value of a field of a JSON object. -/
def getField (j : JOut) (k : List Nat) : Option JOut :=
  match j with
  | .oobj fs => ((fs.find? (fun f => decide (f.1 = k))).map (fun f => f.2))
  | _ => none

/-- One unary `choices` element (lines 537-566): completion `s` at index
`i`. -/
def unaryChoice (i : Int) (s : List Nat) : JOut :=
  .oobj [ (ascii "finish_reason", .ostr (ascii "stop")),
          (ascii "index", .oint i),
          (ascii "logprobs", .onull),
          (ascii "message", .oobj [ (ascii "content", .ostr s),
                                    (ascii "role", .ostr (ascii "assistant")) ]) ]

/-- The `for` loop over completions with `writer.Int(i++)`
(lines 535-567). -/
def unaryChoices (i : Int) : List (List Nat) → List JOut
  | [] => []
  | s :: rest => unaryChoice i s :: unaryChoices (i + 1) rest

/-- `HttpLLMCalculator::serializeUnaryResponse` on a vector of completions
(lines 525-595), parametrized by the calculator's `created` timestamp and
the request's model string (which the member function reads from
`this`). -/
def serializeUnaryResponse (created : Int) (model : List Nat)
    (completeResponses : List (List Nat)) : JOut :=
  .oobj [ (ascii "choices", .oarr (unaryChoices 0 completeResponses)),
          (ascii "created", .oint created),
          (ascii "model", .ostr model),
          (ascii "object", .ostr (ascii "chat.completion")) ]

/-- The single-string overload of `serializeUnaryResponse` (lines
521-523): it delegates to the vector overload on a one-element vector. -/
def serializeUnaryResponseSingle (created : Int) (model : List Nat)
    (completeResponse : List Nat) : JOut :=
  serializeUnaryResponse created model [completeResponse]

/-- `HttpLLMCalculator::serializeStreamingChunk` (lines 597-672). -/
def serializeStreamingChunk (created : Int) (model : List Nat)
    (chunkResponse : List Nat) (stop : Bool) : JOut :=
  .oobj [ (ascii "choices", .oarr [ .oobj [
            (ascii "finish_reason",
              if stop then .ostr (ascii "stop") else .onull),
            (ascii "index", .oint 0),
            (ascii "logprobs", .onull),
            (ascii "delta", .oobj (if stop then []
              else [(ascii "content", .ostr chunkResponse)])) ] ]),
          (ascii "created", .oint created),
          (ascii "model", .ostr model),
          (ascii "object", .ostr (ascii "chat.completion.chunk")) ]

/-- Upper-case hex digit byte (rapidjson's `hexDigits` table). -/
def hexDigit (n : Nat) : Nat := if n < 10 then 48 + n else 55 + n

/-- rapidjson writer escaping of one string byte: `"` and `\`, the five
named control escapes, other control bytes as `\u00XX`, the rest copied
verbatim. -/
def escapeByte (b : Nat) : List Nat :=
  if b = 34 then [92, 34]
  else if b = 92 then [92, 92]
  else if b = 8 then [92, 98]
  else if b = 12 then [92, 102]
  else if b = 10 then [92, 110]
  else if b = 13 then [92, 114]
  else if b = 9 then [92, 116]
  else if b < 32 then [92, 117, 48, 48, hexDigit (b / 16), hexDigit (b % 16)]
  else [b]

/-- Escaped body of a JSON string. -/
def escapeStr (s : List Nat) : List Nat := s.flatMap escapeByte

/-- Decimal digit bytes of a natural number. -/
def natAscii (n : Nat) : List Nat :=
  if h : n < 10 then [48 + n]
  else natAscii (n / 10) ++ [48 + n % 10]
decreasing_by exact Nat.div_lt_self (by omega) (by omega)

/-- `writer.Int`: decimal rendering of an integer. -/
def intAscii (n : Int) : List Nat :=
  if n < 0 then 45 :: natAscii n.natAbs else natAscii n.toNat

mutual

/-- Byte-level rendering of the JSON tree, matching the compact rapidjson
`Writer` output (no whitespace). -/
def renderJ : JOut → List Nat
  | .onull => ascii "null"
  | .ostr s => 34 :: (escapeStr s ++ [34])
  | .oint n => intAscii n
  | .oarr xs => 91 :: (renderArr xs ++ [93])
  | .oobj fs => 123 :: (renderObj fs ++ [125])

/-- Comma-separated array elements. -/
def renderArr : List JOut → List Nat
  | [] => []
  | [x] => renderJ x
  | x :: y :: rest => renderJ x ++ (44 :: renderArr (y :: rest))

/-- Comma-separated `"key":value` members. -/
def renderObj : List (List Nat × JOut) → List Nat
  | [] => []
  | [f] => 34 :: (escapeStr f.1 ++ (34 :: 58 :: renderJ f.2))
  | f :: g :: rest =>
      (34 :: (escapeStr f.1 ++ (34 :: 58 :: renderJ f.2))) ++
        (44 :: renderObj (g :: rest))

end

/-- `packIntoServerSideEventMessage` (lines 674-678):
`"data: " + message + "\n\n"`. -/
def packIntoServerSideEventMessage (message : List Nat) : List Nat :=
  ascii "data: " ++ message ++ [10, 10]

/-- C6: for every chunk and stop flag, the streaming chunk is a JSON
object with top-level keys in the order `choices, created, model, object`;
`object = "chat.completion.chunk"`; `created` and `model` echo the
request's first-tick timestamp and model string; and `choices` is a
one-element array whose element has `finish_reason = "stop"` iff `stop`
(else null), `index = 0`, `logprobs = null`, and `delta = {content: chunk}`
when not stopping or `delta = {}` when stopping. -/
theorem serializeStreamingChunk_spec (created : Int) (model chunk : List Nat)
    (stop : Bool) :
    topKeys (serializeStreamingChunk created model chunk stop) =
      [ascii "choices", ascii "created", ascii "model", ascii "object"] ∧
    getField (serializeStreamingChunk created model chunk stop) (ascii "object") =
      some (.ostr (ascii "chat.completion.chunk")) ∧
    getField (serializeStreamingChunk created model chunk stop) (ascii "created") =
      some (.oint created) ∧
    getField (serializeStreamingChunk created model chunk stop) (ascii "model") =
      some (.ostr model) ∧
    getField (serializeStreamingChunk created model chunk stop) (ascii "choices") =
      some (.oarr [ .oobj [
        (ascii "finish_reason", if stop then .ostr (ascii "stop") else .onull),
        (ascii "index", .oint 0),
        (ascii "logprobs", .onull),
        (ascii "delta", if stop then .oobj []
          else .oobj [(ascii "content", .ostr chunk)]) ] ]) := by
  cases stop <;>
    exact ⟨rfl, rfl, rfl, rfl, rfl⟩

theorem unaryChoices_length (cs : List (List Nat)) :
    ∀ i, (unaryChoices i cs).length = cs.length := by
  induction cs with
  | nil => intro i; rfl
  | cons s rest ih => intro i; simp [unaryChoices, ih]

theorem unaryChoices_getElem (cs : List (List Nat)) :
    ∀ (i : Int) (k : Nat) (s : List Nat), cs[k]? = some s →
      (unaryChoices i cs)[k]? = some (unaryChoice (i + k) s) := by
  induction cs with
  | nil => intro i k s h; simp at h
  | cons c rest ih =>
    intro i k s h
    cases k with
    | zero =>
      simp at h
      simp [unaryChoices, h]
    | succ k =>
      simp at h
      have := ih (i + 1) k s h
      simpa [unaryChoices, add_assoc, add_comm, add_left_comm] using this

/-- C7: for every non-empty list of completions, the unary envelope is a
JSON object with top-level keys in the order `choices, created, model,
object`; `object = "chat.completion"`; and `choices` is an array of the
same length whose `k`-th element (0-based) has `finish_reason = "stop"`,
`index = k`, `logprobs = null`, and
`message = {content: k-th completion, role: "assistant"}`. -/
theorem serializeUnaryResponse_spec (created : Int) (model : List Nat)
    (cs : List (List Nat)) (hne : cs ≠ []) :
    topKeys (serializeUnaryResponse created model cs) =
      [ascii "choices", ascii "created", ascii "model", ascii "object"] ∧
    getField (serializeUnaryResponse created model cs) (ascii "object") =
      some (.ostr (ascii "chat.completion")) ∧
    getField (serializeUnaryResponse created model cs) (ascii "created") =
      some (.oint created) ∧
    getField (serializeUnaryResponse created model cs) (ascii "model") =
      some (.ostr model) ∧
    ∃ elems, getField (serializeUnaryResponse created model cs) (ascii "choices") =
        some (.oarr elems) ∧
      elems.length = cs.length ∧
      ∀ (k : Nat) (s : List Nat), cs[k]? = some s →
        elems[k]? = some (.oobj [
          (ascii "finish_reason", .ostr (ascii "stop")),
          (ascii "index", .oint k),
          (ascii "logprobs", .onull),
          (ascii "message", .oobj [ (ascii "content", .ostr s),
            (ascii "role", .ostr (ascii "assistant")) ]) ]) := by
  refine ⟨rfl, rfl, rfl, rfl, unaryChoices 0 cs, rfl, unaryChoices_length cs 0,
    fun k s h => ?_⟩
  have := unaryChoices_getElem cs 0 k s h
  simpa [unaryChoice] using this

/-- Witness for C7 at a concrete two-completion list. -/
theorem serializeUnaryResponse_spec_witness :
    ([ascii "a", ascii "b"] : List (List Nat)) ≠ [] ∧
    (topKeys (serializeUnaryResponse 7 (ascii "m") [ascii "a", ascii "b"]) =
      [ascii "choices", ascii "created", ascii "model", ascii "object"] ∧
    getField (serializeUnaryResponse 7 (ascii "m") [ascii "a", ascii "b"])
        (ascii "object") = some (.ostr (ascii "chat.completion")) ∧
    getField (serializeUnaryResponse 7 (ascii "m") [ascii "a", ascii "b"])
        (ascii "created") = some (.oint 7) ∧
    getField (serializeUnaryResponse 7 (ascii "m") [ascii "a", ascii "b"])
        (ascii "model") = some (.ostr (ascii "m")) ∧
    ∃ elems, getField (serializeUnaryResponse 7 (ascii "m") [ascii "a", ascii "b"])
        (ascii "choices") = some (.oarr elems) ∧
      elems.length = ([ascii "a", ascii "b"] : List (List Nat)).length ∧
      ∀ (k : Nat) (s : List Nat), ([ascii "a", ascii "b"] : List (List Nat))[k]? = some s →
        elems[k]? = some (.oobj [
          (ascii "finish_reason", .ostr (ascii "stop")),
          (ascii "index", .oint k),
          (ascii "logprobs", .onull),
          (ascii "message", .oobj [ (ascii "content", .ostr s),
            (ascii "role", .ostr (ascii "assistant")) ]) ])) :=
  ⟨by simp, serializeUnaryResponse_spec 7 (ascii "m") [ascii "a", ascii "b"]
    (by simp)⟩

/-- C10: the single-string overload of the unary serializer produces
exactly the same JSON value, and hence the same rendered JSON text, as the
vector overload applied to the one-element vector; the resulting envelope
has a one-element `choices` array whose element carries index 0. -/
theorem serializeUnaryResponseSingle_eq (created : Int) (model s : List Nat) :
    serializeUnaryResponseSingle created model s =
      serializeUnaryResponse created model [s] ∧
    renderJ (serializeUnaryResponseSingle created model s) =
      renderJ (serializeUnaryResponse created model [s]) ∧
    getField (serializeUnaryResponseSingle created model s) (ascii "choices") =
      some (.oarr [unaryChoice 0 s]) ∧
    getField (unaryChoice 0 s) (ascii "index") = some (.oint 0) :=
  ⟨rfl, rfl, rfl, rfl⟩

/-! ## Calculator state machine (`HttpLLMCalculator::Process`, lines 402-518)

The shared pipeline and tokenizer are external: the tokenizer enters as a
`decode` function, and the generation handle returned by `add_request` is
abstracted to the outputs it will deliver.  MediaPipe packet plumbing is
modelled as optional values per tick. -/

/-- The per-request generation handle: `allOutputs` is what the blocking
`read_all()` returns (generated token ids per sequence), `pending` the
tokens that streaming `read()` will deliver, one per call; the handle
reports `FINISHED` exactly when no tokens remain pending. -/
structure GenHandle where
  allOutputs : List (List Int)
  pending : List Int

/-- `get_status() == GenerationStatus::FINISHED`. -/
def GenHandle.finished (h : GenHandle) : Bool := h.pending.isEmpty

/-- The calculator's mutable per-request state across ticks. -/
structure CalcState where
  request : Option OpenAIChatCompletionsRequest
  generationHandle : Option GenHandle
  streamer : Option TextStreamer
  created : Int

/-- The external environment of a tick: the shared tokenizer, the handle
`add_request` would return, and the wall clock reading. -/
structure Env where
  decode : List Int → List Nat
  newHandle : GenHandle
  now : Int

/-- The two input packets a `Process` call may receive. -/
structure TickInput where
  payload : Option JValue
  loopback : Option Bool

/-- Which early-return check fired (each is a `RET_CHECK`, surfaced to the
host as an internal error aborting the invocation). -/
inductive CalcErr where
  | doubleSubmission
  | parseFailed
  | noMessages
  | noContentKey
  | missingState
  | emptyReadAll

/-- Observable result of one `Process` call: error status (`none` is
`absl::OkStatus`), the state left behind, the strings added to the output
port, the loopback packet added (if any) and the prompt passed to
`add_request` (if submission happened on this tick). -/
structure TickResult where
  err : Option CalcErr
  state : CalcState
  outputs : List (List Nat)
  loopback : Option Bool
  submitted : Option (List Nat)

/-- Lines 447-517 of `Process`: the part after the optional first-tick
submission, common to every tick.  The unary branch calls `read_all` and
emits one envelope (the single-sequence legacy path uses the single-string
overload); the streaming branch checks `FINISHED`, and otherwise reads one
token, feeds the streamer, emits a chunk frame if one is produced, and
always re-arms the loopback.  The `read()` postcondition checks (exactly
one sequence, exactly one new token) hold by construction of `GenHandle`. -/
def pump (env : Env) (st : CalcState) (submitted : Option (List Nat)) :
    TickResult :=
  match st.request, st.generationHandle, st.streamer with
  | some req, some h, some strm =>
    if !req.stream then
      if h.allOutputs.length < 1 then
        ⟨some .emptyReadAll, st, [], none, submitted⟩
      else if h.allOutputs.length = 1 then
        ⟨none, st,
          [renderJ (serializeUnaryResponseSingle st.created req.model
            (env.decode (h.allOutputs.headD [])))], none, submitted⟩
      else
        ⟨none, st,
          [renderJ (serializeUnaryResponse st.created req.model
            (h.allOutputs.map env.decode))], none, submitted⟩
    else
      match h.pending with
      | [] =>
        ⟨none, st,
          [packIntoServerSideEventMessage
              (renderJ (serializeStreamingChunk st.created req.model [] true)) ++
            packIntoServerSideEventMessage (ascii "[DONE]")], none, submitted⟩
      | token :: rest =>
        let pr := TextStreamer.put env.decode strm token
        let st2 : CalcState :=
          { st with generationHandle := some ⟨h.allOutputs, rest⟩,
                    streamer := some pr.2 }
        match pr.1 with
        | some chunk =>
          ⟨none, st2,
            [packIntoServerSideEventMessage
              (renderJ (serializeStreamingChunk st.created req.model chunk false))],
            some true, submitted⟩
        | none => ⟨none, st2, [], some true, submitted⟩
  | _, _, _ => ⟨some .missingState, st, [], none, submitted⟩

/-- `HttpLLMCalculator::Process` (lines 402-518), one tick.  Lines
408-410: both input packets empty is a no-op.  Lines 413-445: a payload
packet triggers the one-time submission (freshness `RET_CHECK`s, `created`
capture, decode, message checks, `add_request` with the first message's
`content` as prompt, streamer construction), then execution falls through
to `pump`. -/
def stepTick (env : Env) (st : CalcState) (inp : TickInput) : TickResult :=
  if inp.payload.isNone ∧ inp.loopback.isNone then
    ⟨none, st, [], none, none⟩
  else
    match inp.payload with
    | some doc =>
      if st.request.isSome ∨ st.generationHandle.isSome ∨ st.streamer.isSome then
        ⟨some .doubleSubmission, st, [], none, none⟩
      else
        match parse doc with
        | none => ⟨some .parseFailed, { st with created := env.now }, [], none, none⟩
        | some req =>
          -- RET_CHECK(getMessages().size() >= 1);
          -- RET_CHECK(getMessages()[0].count("content") >= 1);
          match req.messages with
          | [] => ⟨some .noMessages, { st with created := env.now }, [], none, none⟩
          | first :: _ =>
            if entryHas first (ascii "content") = false then
              ⟨some .noContentKey, { st with created := env.now }, [], none, none⟩
            else
              pump env
                { request := some req, generationHandle := some env.newHandle,
                  streamer := some ⟨[], 0⟩, created := env.now }
                (some (entryGet first (ascii "content")))
    | none => pump env st none

/-! ### C4: when the loopback fires -/

/-- The request governing a tick: the one decoded from this tick's payload
if a payload is present, otherwise the stored one. -/
def effRequest (st : CalcState) (inp : TickInput) :
    Option OpenAIChatCompletionsRequest :=
  match inp.payload with
  | some doc => parse doc
  | none => st.request

/-- The generation handle consulted on a tick: the one `add_request`
returns if this tick submits, otherwise the stored one. -/
def effHandle (env : Env) (st : CalcState) (inp : TickInput) : Option GenHandle :=
  match inp.payload with
  | some _ => some env.newHandle
  | none => st.generationHandle

theorem pump_loopback (env : Env) (st : CalcState)
    (submitted : Option (List Nat)) :
    ((pump env st submitted).loopback = some true ↔
      ((pump env st submitted).err = none ∧
       (∃ req, st.request = some req ∧ req.stream = true) ∧
       (∃ h, st.generationHandle = some h ∧ h.finished = false))) ∧
    (pump env st submitted).loopback ≠ some false := by
  obtain ⟨oreq, oh, ostrm, created⟩ := st
  cases oreq with
  | none => simp [pump]
  | some req =>
  cases oh with
  | none => simp [pump]
  | some h =>
  cases ostrm with
  | none => simp [pump]
  | some strm =>
  cases hstream : req.stream with
  | false =>
    by_cases h1 : h.allOutputs.length < 1 <;>
      by_cases h2 : h.allOutputs.length = 1 <;>
        simp [pump, hstream, h1, h2]
  | true =>
    obtain ⟨outs, pending⟩ := h
    cases pending with
    | nil => simp [pump, hstream, GenHandle.finished]
    | cons t rest =>
      cases hput : (TextStreamer.put env.decode strm t).1 <;>
        simp [pump, hstream, GenHandle.finished, hput]

/-- C4: a tick emits a loopback packet, always carrying `true`, if and
only if the call succeeds, at least one input packet is present, the
governing request is in streaming mode, and the handle consulted on that
tick is not `FINISHED`.  In particular no loopback is emitted in unary
mode, on the terminal streaming tick, on a no-input tick, or by an aborted
call. -/
theorem process_loopback_iff (env : Env) (st : CalcState) (inp : TickInput) :
    ((stepTick env st inp).loopback = some true ↔
      ((stepTick env st inp).err = none ∧
       ¬(inp.payload = none ∧ inp.loopback = none) ∧
       (∃ req, effRequest st inp = some req ∧ req.stream = true) ∧
       (∃ h, effHandle env st inp = some h ∧ h.finished = false))) ∧
    (stepTick env st inp).loopback ≠ some false := by
  cases hpay : inp.payload with
  | none =>
    cases hloop : inp.loopback with
    | none => simp [stepTick, hpay, hloop, effRequest, effHandle]
    | some b =>
      simpa [stepTick, hpay, hloop, effRequest, effHandle] using
        pump_loopback env st none
  | some doc =>
    by_cases hdup : st.request.isSome ∨ st.generationHandle.isSome ∨
        st.streamer.isSome
    · simp [stepTick, hpay, hdup, effRequest, effHandle]
    · cases hparse : parse doc with
      | none => simp [stepTick, hpay, hdup, hparse, effRequest, effHandle]
      | some req =>
        cases hmsgs : req.messages with
        | nil => simp [stepTick, hpay, hdup, hparse, hmsgs, effRequest, effHandle]
        | cons first rest =>
          cases hck : entryHas first (ascii "content") with
          | false =>
            simp [stepTick, hpay, hdup, hparse, hmsgs, hck, effRequest,
              effHandle]
          | true =>
            simpa [stepTick, hpay, hdup, hparse, hmsgs, hck, effRequest,
              effHandle] using
              pump_loopback env
                { request := some req, generationHandle := some env.newHandle,
                  streamer := some ⟨[], 0⟩, created := env.now }
                (some (entryGet first (ascii "content")))

/-! ### C3: the terminal streaming tick -/

/-- The streaming phase as the host drives it: while a tick emits a
loopback, call `Process` again with only the loopback packet; collect the
output-port strings in order. -/
def streamTrace (env : Env) (st : CalcState) : Nat → List (List Nat)
  | 0 => []
  | n + 1 =>
    let r := stepTick env st ⟨none, some true⟩
    match r.loopback with
    | some _ => r.outputs ++ streamTrace env r.state n
    | none => r.outputs

/-- C3: on the tick where the handle is `FINISHED`, `Process` emits exactly
one output string — the SSE frame of the terminal `stop` chunk immediately
followed by the `[DONE]` frame — and no loopback; driving the streaming
phase to completion, that string is the last output and every earlier
output is a single non-terminal chunk frame, so the `stop` chunk and
`[DONE]` are the last two frames, in that order, on the same tick, with
nothing after them. -/
theorem streaming_stop_and_done_are_last (env : Env)
    (req : OpenAIChatCompletionsRequest) (hstream : req.stream = true) :
    ∀ (pending : List Int) (outs : List (List Int)) (st : CalcState)
      (strm : TextStreamer) (fuel : Nat),
      st.request = some req →
      st.generationHandle = some ⟨outs, pending⟩ →
      st.streamer = some strm →
      pending.length < fuel →
      ((pending = [] →
        (stepTick env st ⟨none, some true⟩).outputs =
          [packIntoServerSideEventMessage
              (renderJ (serializeStreamingChunk st.created req.model [] true)) ++
            packIntoServerSideEventMessage (ascii "[DONE]")] ∧
        (stepTick env st ⟨none, some true⟩).loopback = none ∧
        (stepTick env st ⟨none, some true⟩).err = none) ∧
      ∃ body, streamTrace env st fuel =
          body ++ [packIntoServerSideEventMessage
              (renderJ (serializeStreamingChunk st.created req.model [] true)) ++
            packIntoServerSideEventMessage (ascii "[DONE]")] ∧
        ∀ x ∈ body, ∃ c, x = packIntoServerSideEventMessage
          (renderJ (serializeStreamingChunk st.created req.model c false))) := by
  intro pending
  induction pending with
  | nil =>
    intro outs st strm fuel hreq hh hs hfuel
    cases fuel with
    | zero => omega
    | succ n =>
      refine ⟨fun _ => ?_, [], ?_, by simp⟩
      · simp [stepTick, pump, hreq, hh, hs, hstream]
      · simp [streamTrace, stepTick, pump, hreq, hh, hs, hstream]
  | cons t rest ih =>
    intro outs st strm fuel hreq hh hs hfuel
    cases fuel with
    | zero => omega
    | succ n =>
      have hfuel2 : rest.length < n := by
        simp [List.length_cons] at hfuel; omega
      refine ⟨fun hc => by simp at hc, ?_⟩
      obtain ⟨-, body, hb1, hb2⟩ :=
        ih outs
          { st with generationHandle := some ⟨outs, rest⟩,
                    streamer := some (TextStreamer.put env.decode strm t).2 }
          (TextStreamer.put env.decode strm t).2 n (by simp [hreq]) (by simp)
          (by simp) hfuel2
      cases hput : (TextStreamer.put env.decode strm t).1 with
      | none =>
        refine ⟨body, ?_, hb2⟩
        simp only [streamTrace, stepTick, pump, hreq, hh, hs, hstream]
        simp only [hput]
        simpa [hreq] using hb1
      | some chunk =>
        refine ⟨packIntoServerSideEventMessage
            (renderJ (serializeStreamingChunk st.created req.model chunk false)) ::
            body, ?_, ?_⟩
        · simp only [streamTrace, stepTick, pump, hreq, hh, hs, hstream]
          simp only [hput]
          simpa [hreq] using hb1
        · intro x hx
          cases hx with
          | head => exact ⟨chunk, rfl⟩
          | tail _ hx => exact hb2 x hx

/-- Concrete tokenizer for witnesses: every token decodes to one byte
`97`. -/
def witDecode : List Int → List Nat := fun ts => List.replicate ts.length 97

/-- Concrete environment for witnesses. -/
def witEnv : Env := ⟨witDecode, ⟨[], []⟩, 0⟩

/-- Concrete streaming request for witnesses. -/
def witReq : OpenAIChatCompletionsRequest :=
  { messages := [[(ascii "content", ascii "hi")]], stream := true,
    model := ascii "m", maxTokens := none, diversityPenalty := none,
    repetitionPenalty := none, lengthPenalty := none,
    numReturnSequences := none, temperature := none, topP := none,
    topK := none, seed := none, bestOf := none, ignoreEOS := none }

/-- Concrete mid-stream calculator state for witnesses: one token left. -/
def witSt : CalcState :=
  { request := some witReq, generationHandle := some ⟨[], [5]⟩,
    streamer := some ⟨[], 0⟩, created := 0 }

/-- Witness for C3 at the concrete state with one pending token and fuel
2. -/
theorem streaming_stop_and_done_are_last_witness :
    (([5] : List Int) = [] →
      (stepTick witEnv witSt ⟨none, some true⟩).outputs =
        [packIntoServerSideEventMessage
            (renderJ (serializeStreamingChunk witSt.created witReq.model [] true)) ++
          packIntoServerSideEventMessage (ascii "[DONE]")] ∧
      (stepTick witEnv witSt ⟨none, some true⟩).loopback = none ∧
      (stepTick witEnv witSt ⟨none, some true⟩).err = none) ∧
    ∃ body, streamTrace witEnv witSt 2 =
        body ++ [packIntoServerSideEventMessage
            (renderJ (serializeStreamingChunk witSt.created witReq.model [] true)) ++
          packIntoServerSideEventMessage (ascii "[DONE]")] ∧
      ∀ x ∈ body, ∃ c, x = packIntoServerSideEventMessage
        (renderJ (serializeStreamingChunk witSt.created witReq.model c false)) :=
  streaming_stop_and_done_are_last witEnv witReq rfl [5] [] witSt ⟨[], 0⟩ 2
    rfl rfl rfl (by simp)

/-! ### C8: empty `messages`, or first message without `content` -/

/-- A request whose `messages` is the empty array (and whose `model` is
present and well-typed). -/
def emptyMessagesDoc : JValue :=
  .jobj [(ascii "model", .jstr (ascii "m")), (ascii "messages", .jarr [])]

/-- The request value the decoder produces for `emptyMessagesDoc`. -/
def emptyMessagesReq : OpenAIChatCompletionsRequest :=
  { messages := [], stream := false, model := ascii "m", maxTokens := none,
    diversityPenalty := none, repetitionPenalty := none,
    lengthPenalty := none, numReturnSequences := none, temperature := none,
    topP := none, topK := none, seed := none, bestOf := none,
    ignoreEOS := none }

/-- C8 counterexample: a request with an empty `messages` array is NOT
rejected at decoding — `parse` succeeds on it (returning a request with no
messages), so the decode-time bad-request rejection the claim describes
does not happen there. -/
theorem emptyMessages_passes_decoder :
    ((parse emptyMessagesDoc).map fun r => r.messages) = some [] := rfl

/-- C8 (amended): a decoded request whose `messages` is empty, or whose
first message lacks a `content` key, is rejected by the calculator's
precondition checks right after decoding (an internal-error `RET_CHECK`,
not a decode-time bad request): the tick aborts with the corresponding
error, emits nothing, emits no loopback, and starts no generation. -/
theorem emptyMessages_rejected_after_decode (env : Env) (st : CalcState)
    (doc : JValue) (req : OpenAIChatCompletionsRequest)
    (hfresh : st.request = none ∧ st.generationHandle = none ∧
      st.streamer = none)
    (hp : parse doc = some req)
    (hbad : req.messages = [] ∨
      ∃ first rest, req.messages = first :: rest ∧
        entryHas first (ascii "content") = false) :
    ((stepTick env st ⟨some doc, none⟩).err = some .noMessages ∨
      (stepTick env st ⟨some doc, none⟩).err = some .noContentKey) ∧
    (stepTick env st ⟨some doc, none⟩).outputs = [] ∧
    (stepTick env st ⟨some doc, none⟩).loopback = none ∧
    (stepTick env st ⟨some doc, none⟩).submitted = none ∧
    (stepTick env st ⟨some doc, none⟩).state.generationHandle = none := by
  obtain ⟨hf1, hf2, hf3⟩ := hfresh
  rcases hbad with hmsgs | ⟨first, rest, hmsgs, hck⟩
  · simp [stepTick, hf1, hf2, hf3, hp, hmsgs]
  · simp [stepTick, hf1, hf2, hf3, hp, hmsgs, hck]

/-- A fresh (pre-submission) calculator state. -/
def freshSt : CalcState :=
  { request := none, generationHandle := none, streamer := none,
    created := 0 }

/-- Witness for the amended C8 at the concrete empty-`messages` request. -/
theorem emptyMessages_rejected_after_decode_witness :
    ((stepTick witEnv freshSt ⟨some emptyMessagesDoc, none⟩).err =
        some .noMessages ∨
      (stepTick witEnv freshSt ⟨some emptyMessagesDoc, none⟩).err =
        some .noContentKey) ∧
    (stepTick witEnv freshSt ⟨some emptyMessagesDoc, none⟩).outputs = [] ∧
    (stepTick witEnv freshSt ⟨some emptyMessagesDoc, none⟩).loopback = none ∧
    (stepTick witEnv freshSt ⟨some emptyMessagesDoc, none⟩).submitted = none ∧
    (stepTick witEnv freshSt ⟨some emptyMessagesDoc, none⟩).state.generationHandle =
      none :=
  emptyMessages_rejected_after_decode witEnv freshSt emptyMessagesDoc
    emptyMessagesReq ⟨rfl, rfl, rfl⟩ rfl (Or.inl rfl)

end OvmsLLM
